import Mathlib

/-!
Shallow embedding of the SMTP Integrator charm (`src/charm.py`).

The charm reacts to three lifecycle notifications (configuration-changed,
relation-created for the current `smtp` relation, relation-created for the
legacy relation).  Each reaction is embedded as a function that, given the
raw configuration, the validated state snapshot and the surrounding model
state (leadership flag, existing relations, secret store), produces the list
of effects (`Effect`) the handler performs, in order.  A separate
interpreter `applyAction` folds the effects into the model state, so both
temporal (ordering of effects) and state (resulting databags, secrets,
status) properties can be stated.

`charm_state.py` (the configuration validator producing `CharmState`) and
the relation library `charms.smtp_integrator.v0.smtp` are not part of the
provided sources; they are modelled from the spec where indicated.
-/

/-- Raw configuration surface, as read by the charm: host, port, user,
password, auth_type, transport_security, domain. -/
structure SmtpConfig where
  host : String
  port : Nat
  user : Option String
  password : Option String
  auth_type : String
  transport_security : String
  domain : Option String
deriving DecidableEq, Repr

/-- Validated state snapshot produced by `CharmState.from_charm`, plus the
`password_id` secret reference which the charm assigns after storing the
password as a secret. -/
structure CharmState where
  host : String
  port : Nat
  user : Option String
  password : Option String
  auth_type : String
  transport_security : String
  domain : Option String
  password_id : Option String
deriving DecidableEq, Repr

/-- Python truthiness of an optional string: `None` and `""` are falsy. -/
def optTruthy : Option String → Bool
  | none => false
  | some s => s != ""

/-- Modelled from the spec: allowed `auth_type` values ("enum: none/plain/login"). -/
def validAuthTypes : List String := ["none", "plain", "login"]

/-- Modelled from the spec: allowed `transport_security` values ("enum: none/starttls/tls"). -/
def validTransportSecurity : List String := ["none", "starttls", "tls"]

/-- Modelled from the spec: the validation performed by `charm_state.py`
(not under src/).  It validates the port against the valid TCP port range
and `auth_type` / `transport_security` against closed enumerations, and
fails with a descriptive message on any violation. -/
def validateConfig (cfg : SmtpConfig) : Option String :=
  if cfg.port < 1 ∨ 65535 < cfg.port then
    some "invalid configuration: port"
  else if cfg.auth_type ∉ validAuthTypes then
    some "invalid configuration: auth_type"
  else if cfg.transport_security ∉ validTransportSecurity then
    some "invalid configuration: transport_security"
  else
    none

/-- Modelled from the spec: `CharmState.from_charm` of `charm_state.py`
(not under src/): validates the raw configuration and produces a state
snapshot, or fails with the violation message (`CharmConfigInvalidError`).
The `password_id` secret reference is persisted outside the snapshot (the
spec lists it as "persisted"); it is injected here from the model state. -/
def CharmState.from_charm (cfg : SmtpConfig) (stored_password_id : Option String) :
    Except String CharmState :=
  match validateConfig cfg with
  | some e => .error e
  | none =>
      .ok { host := cfg.host, port := cfg.port, user := cfg.user,
            password := cfg.password, auth_type := cfg.auth_type,
            transport_security := cfg.transport_security, domain := cfg.domain,
            password_id := stored_password_id }

/-- Modelled from the spec: the wire shape of `smtp.SmtpRelationData` (the
relation library is not under src/).  The current payload carries
`password_id` and no `password`; the legacy payload carries `password` and
no `password_id`; the unused field is `none`. -/
structure SmtpRelationData where
  host : String
  port : Nat
  user : Option String
  password : Option String
  password_id : Option String
  auth_type : String
  transport_security : String
  domain : Option String
deriving DecidableEq, Repr

/-- `_get_smtp_data` (charm.py:123-137): current payload, exposing
`password_id` and never the plaintext password. -/
def _get_smtp_data (st : CharmState) : SmtpRelationData :=
  { host := st.host, port := st.port, user := st.user,
    password := none, password_id := st.password_id,
    auth_type := st.auth_type, transport_security := st.transport_security,
    domain := st.domain }

/-- `_get_legacy_smtp_data` (charm.py:107-121): legacy payload, exposing
the plaintext `password` and no `password_id`. -/
def _get_legacy_smtp_data (st : CharmState) : SmtpRelationData :=
  { host := st.host, port := st.port, user := st.user,
    password := st.password, password_id := none,
    auth_type := st.auth_type, transport_security := st.transport_security,
    domain := st.domain }

/-- Which of the two relation channels a relation belongs to. -/
inductive RelKind
  | current
  | legacy
deriving DecidableEq, Repr

/-- A relation with its application databag (none if never written). -/
structure Relation where
  id : Nat
  data : Option SmtpRelationData
deriving DecidableEq, Repr

/-- A secret in the host secret store: its id, the password content and the
set of relations granted read access. -/
structure Secret where
  id : String
  password : String
  grants : List Nat
deriving DecidableEq, Repr

/-- Unit status as set by the charm. -/
inductive Status
  | maintenance (msg : String)
  | active
  | blocked (msg : String)
  | initial
deriving DecidableEq, Repr

/-- The surrounding model: leadership, the relations of both kinds, the
secret store, the persisted secret reference and the unit status. -/
structure ModelState where
  isLeader : Bool
  relations : List Relation
  legacyRelations : List Relation
  secrets : List Secret
  nextSecretId : Nat
  storedPasswordId : Option String
  unitStatus : Status
deriving DecidableEq, Repr

/-- Fresh opaque secret ids handed out by the host secret store. -/
def mkSecretId (n : Nat) : String := "secret-" ++ toString n

/-- One observable effect performed by a handler, in program order. -/
inductive Effect
  | setStatus (s : Status)
  | createSecret (sid : String) (password : String)
  | grantSecret (sid : String) (rid : Nat)
  | writeRelationData (kind : RelKind) (rid : Nat) (d : SmtpRelationData)
deriving DecidableEq, Repr

def Effect.isWrite : Effect → Bool
  | .writeRelationData _ _ _ => true
  | _ => false

def Effect.isGrant : Effect → Bool
  | .grantSecret _ _ => true
  | _ => false

def Effect.isCreate : Effect → Bool
  | .createSecret _ _ => true
  | _ => false

/-- `_store_password_as_secret` (charm.py:75-80): if the password is truthy,
create a secret holding it and record its id in the state snapshot.  The
password field itself is left untouched. -/
def _store_password_as_secret (st : CharmState) (nextId : Nat) :
    CharmState × List Effect :=
  match st.password with
  | some pw =>
      if pw ≠ "" then
        ({ st with password_id := some (mkSecretId nextId) },
         [Effect.createSecret (mkSecretId nextId) pw])
      else (st, [])
  | none => (st, [])

/-- `_update_relations` (charm.py:82-89): leader-only; write the current
payload into every `smtp` relation and the legacy payload into every legacy
relation. -/
def _update_relations (st : CharmState) (m : ModelState) : List Effect :=
  if m.isLeader then
    (m.relations.map fun r => Effect.writeRelationData RelKind.current r.id (_get_smtp_data st))
      ++ (m.legacyRelations.map fun r =>
            Effect.writeRelationData RelKind.legacy r.id (_get_legacy_smtp_data st))
  else []

/-- `_on_config_changed` (charm.py:68-73): maintenance status, store the
password as a secret, update all relations, active status. -/
def _on_config_changed (st : CharmState) (m : ModelState) : List Effect :=
  let stored := _store_password_as_secret st m.nextSecretId
  Effect.setStatus (Status.maintenance "Configuring charm")
    :: (stored.2 ++ _update_relations stored.1 m ++ [Effect.setStatus Status.active])

/-- `_on_relation_created` (charm.py:45-56): leader-only; if a truthy
secret reference exists in state, grant the relation read access to that
secret, then write the current payload into the relation. -/
def _on_relation_created (rid : Nat) (st : CharmState) (m : ModelState) : List Effect :=
  if m.isLeader then
    (match st.password_id with
     | some sid => if sid ≠ "" then [Effect.grantSecret sid rid] else []
     | none => [])
      ++ [Effect.writeRelationData RelKind.current rid (_get_smtp_data st)]
  else []

/-- `_on_legacy_relation_created` (charm.py:58-66): leader-only; write the
legacy payload into the relation (no secret grant). -/
def _on_legacy_relation_created (rid : Nat) (st : CharmState) (m : ModelState) : List Effect :=
  if m.isLeader then
    [Effect.writeRelationData RelKind.legacy rid (_get_legacy_smtp_data st)]
  else []

/-- The three inbound lifecycle notifications. -/
inductive Event
  | configChanged
  | relationCreated (rid : Nat)
  | legacyRelationCreated (rid : Nat)
deriving DecidableEq, Repr

/-- Event dispatch, mirroring `SmtpIntegratorOperatorCharm.__init__`
(charm.py:30-43): the state snapshot is built first; on
`CharmConfigInvalidError` the unit is blocked with the violation message and
no handler runs; otherwise the event's handler produces the effects. -/
def dispatch (cfg : SmtpConfig) (ev : Event) (m : ModelState) : List Effect :=
  match CharmState.from_charm cfg m.storedPasswordId with
  | .error msg => [Effect.setStatus (Status.blocked msg)]
  | .ok st =>
      match ev with
      | .configChanged => _on_config_changed st m
      | .relationCreated rid => _on_relation_created rid st m
      | .legacyRelationCreated rid => _on_legacy_relation_created rid st m

/-- Write a payload into the databag of every relation with the given id. -/
def writeRel (rid : Nat) (d : SmtpRelationData) (rels : List Relation) : List Relation :=
  rels.map fun r => if r.id = rid then { r with data := some d } else r

/-- Interpreter for one effect against the model state. -/
def applyAction (m : ModelState) (a : Effect) : ModelState :=
  match a with
  | .setStatus s => { m with unitStatus := s }
  | .createSecret sid pw =>
      { m with secrets := m.secrets ++ [{ id := sid, password := pw, grants := [] }],
               storedPasswordId := some sid,
               nextSecretId := m.nextSecretId + 1 }
  | .grantSecret sid rid =>
      { m with secrets := m.secrets.map fun s =>
          if s.id = sid then { s with grants := s.grants ++ [rid] } else s }
  | .writeRelationData RelKind.current rid d =>
      { m with relations := writeRel rid d m.relations }
  | .writeRelationData RelKind.legacy rid d =>
      { m with legacyRelations := writeRel rid d m.legacyRelations }

def applyActions (m : ModelState) (acts : List Effect) : ModelState :=
  acts.foldl applyAction m

/-- One full reaction: dispatch the event and apply its effects. -/
def step (m : ModelState) (cfg : SmtpConfig) (ev : Event) : ModelState :=
  applyActions m (dispatch cfg ev m)

/-- A sequence of reactions under a fixed configuration. -/
def runEvents (m : ModelState) (cfg : SmtpConfig) (evs : List Event) : ModelState :=
  evs.foldl (fun m' ev => step m' cfg ev) m

/-! ### Helper lemmas about the effect interpreter -/

theorem applyActions_nil (m : ModelState) : applyActions m [] = m := rfl

theorem applyActions_cons (m : ModelState) (a : Effect) (acts : List Effect) :
    applyActions m (a :: acts) = applyActions (applyAction m a) acts := rfl

theorem applyActions_append (m : ModelState) (l₁ l₂ : List Effect) :
    applyActions m (l₁ ++ l₂) = applyActions (applyActions m l₁) l₂ :=
  List.foldl_append ..

/-- Write one payload into all relations with the listed ids, in order. -/
def writeMany (d : SmtpRelationData) (ids : List Nat) (rels : List Relation) :
    List Relation :=
  ids.foldl (fun rs rid => writeRel rid d rs) rels

theorem applyActions_mapWritesCur (d : SmtpRelationData) (rels : List Relation) :
    ∀ m : ModelState,
      applyActions m (rels.map fun r => Effect.writeRelationData RelKind.current r.id d)
        = { m with relations := writeMany d (rels.map Relation.id) m.relations } := by
  induction rels with
  | nil => intro m; rfl
  | cons a t ih =>
      intro m
      simp only [List.map_cons, applyActions_cons, applyAction, writeMany, List.foldl_cons]
      exact ih _

theorem applyActions_mapWritesLeg (d : SmtpRelationData) (rels : List Relation) :
    ∀ m : ModelState,
      applyActions m (rels.map fun r => Effect.writeRelationData RelKind.legacy r.id d)
        = { m with legacyRelations := writeMany d (rels.map Relation.id) m.legacyRelations } := by
  induction rels with
  | nil => intro m; rfl
  | cons a t ih =>
      intro m
      simp only [List.map_cons, applyActions_cons, applyAction, writeMany, List.foldl_cons]
      exact ih _

theorem writeMany_mem (d : SmtpRelationData) (ids : List Nat) :
    ∀ rels : List Relation, ∀ r ∈ writeMany d ids rels,
      r.data = some d ∨ (r ∈ rels ∧ r.id ∉ ids) := by
  induction ids with
  | nil => intro rels r hr; exact Or.inr ⟨hr, List.not_mem_nil _⟩
  | cons i t ih =>
      intro rels r hr
      rcases ih (writeRel i d rels) r hr with h | ⟨hmem, hnot⟩
      · exact Or.inl h
      · rcases List.mem_map.mp hmem with ⟨r₀, hr₀, hupd⟩
        by_cases hid : r₀.id = i
        · subst hupd; simp only [hid, if_pos rfl] at *
          exact Or.inl rfl
        · subst hupd
          simp only [if_neg hid] at hnot ⊢
          exact Or.inr ⟨hr₀, by
            intro hmem'
            rcases List.mem_cons.mp hmem' with h' | h'
            · exact hid h'
            · exact hnot h'⟩

/-- Writing to every relation of a list sets every databag to the payload. -/
theorem writeMany_self (d : SmtpRelationData) (rels : List Relation) :
    ∀ r ∈ writeMany d (rels.map Relation.id) rels, r.data = some d := by
  intro r hr
  rcases writeMany_mem d (rels.map Relation.id) rels r hr with h | ⟨hmem, hnot⟩
  · exact h
  · exact absurd (List.mem_map_of_mem Relation.id hmem) hnot

/-! ### Dispatch and handler shape lemmas -/

theorem dispatch_error (cfg : SmtpConfig) (ev : Event) (m : ModelState) (e : String)
    (h : CharmState.from_charm cfg m.storedPasswordId = Except.error e) :
    dispatch cfg ev m = [Effect.setStatus (Status.blocked e)] := by
  unfold dispatch; rw [h]

theorem dispatch_configChanged_ok (cfg : SmtpConfig) (m : ModelState) (st : CharmState)
    (h : CharmState.from_charm cfg m.storedPasswordId = Except.ok st) :
    dispatch cfg Event.configChanged m = _on_config_changed st m := by
  unfold dispatch; rw [h]

theorem dispatch_relationCreated_ok (cfg : SmtpConfig) (m : ModelState) (st : CharmState)
    (rid : Nat) (h : CharmState.from_charm cfg m.storedPasswordId = Except.ok st) :
    dispatch cfg (Event.relationCreated rid) m = _on_relation_created rid st m := by
  unfold dispatch; rw [h]

theorem dispatch_legacyRelationCreated_ok (cfg : SmtpConfig) (m : ModelState) (st : CharmState)
    (rid : Nat) (h : CharmState.from_charm cfg m.storedPasswordId = Except.ok st) :
    dispatch cfg (Event.legacyRelationCreated rid) m = _on_legacy_relation_created rid st m := by
  unfold dispatch; rw [h]

theorem store_truthy (st : CharmState) (n : Nat) (pw : String)
    (hpw : st.password = some pw) (hne : pw ≠ "") :
    _store_password_as_secret st n
      = ({ st with password_id := some (mkSecretId n) },
         [Effect.createSecret (mkSecretId n) pw]) := by
  unfold _store_password_as_secret; rw [hpw]; simp [hne]

theorem store_falsy (st : CharmState) (n : Nat)
    (h : optTruthy st.password = false) :
    _store_password_as_secret st n = (st, []) := by
  unfold _store_password_as_secret
  cases hpw : st.password with
  | none => rfl
  | some pw =>
      rw [hpw] at h
      simp only [optTruthy, bne_eq_false_iff_eq] at h
      simp [h]

/-- Full shape of the configuration-changed effect trace when the password
is truthy: maintenance status, one secret creation, then the relation
updates computed from the state carrying the fresh reference, then active
status. -/
theorem configChanged_trace (cfg : SmtpConfig) (m : ModelState) (st : CharmState) (pw : String)
    (hok : CharmState.from_charm cfg m.storedPasswordId = Except.ok st)
    (hpw : st.password = some pw) (hne : pw ≠ "") :
    dispatch cfg Event.configChanged m
      = Effect.setStatus (Status.maintenance "Configuring charm")
        :: Effect.createSecret (mkSecretId m.nextSecretId) pw
        :: (_update_relations { st with password_id := some (mkSecretId m.nextSecretId) } m
            ++ [Effect.setStatus Status.active]) := by
  rw [dispatch_configChanged_ok cfg m st hok]
  simp only [_on_config_changed, store_truthy st m.nextSecretId pw hpw hne,
    List.cons_append, List.nil_append, List.append_assoc]

theorem update_relations_of_leader (st : CharmState) (m : ModelState)
    (hl : m.isLeader = true) :
    _update_relations st m
      = (m.relations.map fun r =>
          Effect.writeRelationData RelKind.current r.id (_get_smtp_data st))
        ++ (m.legacyRelations.map fun r =>
              Effect.writeRelationData RelKind.legacy r.id (_get_legacy_smtp_data st)) := by
  simp [_update_relations, hl]

theorem update_relations_of_nonleader (st : CharmState) (m : ModelState)
    (hl : m.isLeader = false) :
    _update_relations st m = [] := by
  simp [_update_relations, hl]

/-- Resulting model state of a leader configuration-changed reaction with a
truthy password. -/
theorem step_configChanged_leader (cfg : SmtpConfig) (m : ModelState) (st : CharmState)
    (pw : String)
    (hok : CharmState.from_charm cfg m.storedPasswordId = Except.ok st)
    (hpw : st.password = some pw) (hne : pw ≠ "") (hl : m.isLeader = true) :
    step m cfg Event.configChanged
      = { m with
          relations := writeMany
            (_get_smtp_data { st with password_id := some (mkSecretId m.nextSecretId) })
            (m.relations.map Relation.id) m.relations,
          legacyRelations := writeMany
            (_get_legacy_smtp_data { st with password_id := some (mkSecretId m.nextSecretId) })
            (m.legacyRelations.map Relation.id) m.legacyRelations,
          secrets := m.secrets
            ++ [{ id := mkSecretId m.nextSecretId, password := pw, grants := [] }],
          nextSecretId := m.nextSecretId + 1,
          storedPasswordId := some (mkSecretId m.nextSecretId),
          unitStatus := Status.active } := by
  unfold step
  rw [configChanged_trace cfg m st pw hok hpw hne,
    update_relations_of_leader _ m hl]
  rw [applyActions_cons, applyActions_cons]
  rw [applyActions_append, applyActions_append]
  rw [applyActions_mapWritesCur, applyActions_mapWritesLeg]
  rfl

/-- Resulting model state of a non-leader configuration-changed reaction
with a truthy password: the secret is still created and the status still
ends active, but no relation is touched. -/
theorem step_configChanged_nonleader (cfg : SmtpConfig) (m : ModelState) (st : CharmState)
    (pw : String)
    (hok : CharmState.from_charm cfg m.storedPasswordId = Except.ok st)
    (hpw : st.password = some pw) (hne : pw ≠ "") (hl : m.isLeader = false) :
    step m cfg Event.configChanged
      = { m with
          secrets := m.secrets
            ++ [{ id := mkSecretId m.nextSecretId, password := pw, grants := [] }],
          nextSecretId := m.nextSecretId + 1,
          storedPasswordId := some (mkSecretId m.nextSecretId),
          unitStatus := Status.active } := by
  unfold step
  rw [configChanged_trace cfg m st pw hok hpw hne,
    update_relations_of_nonleader _ m hl]
  rfl

theorem countP_create_mapWrites (k : RelKind) (d : SmtpRelationData) (rels : List Relation) :
    (rels.map fun r => Effect.writeRelationData k r.id d).countP Effect.isCreate = 0 := by
  induction rels with
  | nil => rfl
  | cons a t ih => simp [List.countP_cons, Effect.isCreate, ih]

/-! ### Concrete fixtures -/

/-- The configuration of the spec's scenario. -/
def exampleConfig : SmtpConfig :=
  { host := "smtp.example.com", port := 587, user := some "u", password := some "p",
    auth_type := "plain", transport_security := "starttls", domain := none }

/-- The scenario configuration with an out-of-range port. -/
def invalidConfig : SmtpConfig := { exampleConfig with port := 99999 }

/-- A leader unit with one relation of each kind and an empty secret store. -/
def baseModel : ModelState :=
  { isLeader := true, relations := [{ id := 1, data := none }],
    legacyRelations := [{ id := 2, data := none }], secrets := [],
    nextSecretId := 0, storedPasswordId := none, unitStatus := Status.initial }

/-! ### Claims -/

/-- C1: for the scenario configuration {host: smtp.example.com, port: 587,
auth_type: plain, transport_security: starttls, user: u, password: p} on a
leader unit, the configuration-changed reaction creates exactly one secret,
writes into every current relation the payload {host, port, user,
password_id: the new secret's id, auth_type, transport_security,
domain: none} (with no plaintext password), and writes into every legacy
relation the identical payload except with password "p" in place of
password_id. -/
theorem configChanged_leader_scenario (m : ModelState) (hl : m.isLeader = true) :
    (dispatch exampleConfig Event.configChanged m).countP Effect.isCreate = 1
    ∧ (step m exampleConfig Event.configChanged).secrets
        = m.secrets ++ [{ id := mkSecretId m.nextSecretId, password := "p", grants := [] }]
    ∧ (∀ r ∈ (step m exampleConfig Event.configChanged).relations,
        r.data = some { host := "smtp.example.com", port := 587, user := some "u",
                        password := none,
                        password_id := some (mkSecretId m.nextSecretId),
                        auth_type := "plain", transport_security := "starttls",
                        domain := none })
    ∧ (∀ r ∈ (step m exampleConfig Event.configChanged).legacyRelations,
        r.data = some { host := "smtp.example.com", port := 587, user := some "u",
                        password := some "p", password_id := none,
                        auth_type := "plain", transport_security := "starttls",
                        domain := none }) := by
  have hok : CharmState.from_charm exampleConfig m.storedPasswordId = Except.ok
      { host := "smtp.example.com", port := 587, user := some "u", password := some "p",
        auth_type := "plain", transport_security := "starttls", domain := none,
        password_id := m.storedPasswordId } := rfl
  have hstep := step_configChanged_leader exampleConfig m _ "p" hok rfl (by decide) hl
  refine ⟨?_, ?_, ?_, ?_⟩
  · rw [configChanged_trace exampleConfig m _ "p" hok rfl (by decide),
      update_relations_of_leader _ m hl]
    simp [List.countP_cons, List.countP_append, countP_create_mapWrites, Effect.isCreate]
  · rw [hstep]
  · rw [hstep]
    intro r hr
    exact writeMany_self _ _ r hr
  · rw [hstep]
    intro r hr
    exact writeMany_self _ _ r hr

/-- Witness for C1 at a concrete leader model. -/
theorem configChanged_leader_scenario_witness :
    baseModel.isLeader = true
    ∧ ((dispatch exampleConfig Event.configChanged baseModel).countP Effect.isCreate = 1
    ∧ (step baseModel exampleConfig Event.configChanged).secrets
        = baseModel.secrets
          ++ [{ id := mkSecretId baseModel.nextSecretId, password := "p", grants := [] }]
    ∧ (∀ r ∈ (step baseModel exampleConfig Event.configChanged).relations,
        r.data = some { host := "smtp.example.com", port := 587, user := some "u",
                        password := none,
                        password_id := some (mkSecretId baseModel.nextSecretId),
                        auth_type := "plain", transport_security := "starttls",
                        domain := none })
    ∧ (∀ r ∈ (step baseModel exampleConfig Event.configChanged).legacyRelations,
        r.data = some { host := "smtp.example.com", port := 587, user := some "u",
                        password := some "p", password_id := none,
                        auth_type := "plain", transport_security := "starttls",
                        domain := none })) :=
  ⟨rfl, configChanged_leader_scenario baseModel rfl⟩

/-- The validated state snapshot of the scenario configuration, before any
secret has been stored. -/
def exampleState : CharmState :=
  { host := "smtp.example.com", port := 587, user := some "u", password := some "p",
    auth_type := "plain", transport_security := "starttls", domain := none,
    password_id := none }

/-- C2 counterexample: storing the password as a secret converts it to a
password_id (one creation effect, reference recorded), yet the password
field is NOT cleared from the state snapshot — the plaintext remains in
state alongside the secret reference. -/
theorem store_password_not_cleared_cex :
    (_store_password_as_secret exampleState 0).2.countP Effect.isCreate = 1
    ∧ (_store_password_as_secret exampleState 0).1.password_id = some "secret-0"
    ∧ (_store_password_as_secret exampleState 0).1.password = some "p" := by
  decide

/-- C2 amended: after the password is converted to a password_id, the
password field is NOT cleared: the state snapshot keeps the plaintext
password unchanged alongside the new secret reference (the legacy relation
payload, written later in the same reaction, still reads it). -/
theorem store_password_kept_amended (st : CharmState) (n : Nat) (pw : String)
    (hpw : st.password = some pw) (hne : pw ≠ "") :
    (_store_password_as_secret st n).1.password = some pw
    ∧ (_store_password_as_secret st n).1.password_id = some (mkSecretId n) := by
  rw [store_truthy st n pw hpw hne]
  exact ⟨hpw, rfl⟩

/-- Witness for the amended C2. -/
theorem store_password_kept_amended_witness :
    exampleState.password = some "p" ∧ ("p" : String) ≠ ""
    ∧ ((_store_password_as_secret exampleState 3).1.password = some "p"
    ∧ (_store_password_as_secret exampleState 3).1.password_id = some (mkSecretId 3)) :=
  ⟨rfl, by decide, store_password_kept_amended exampleState 3 "p" rfl (by decide)⟩

/-- C3: whenever the validator rejects the configuration (for example the
scenario config with port 99999), every reaction only sets the blocked
status with the violation message: no relation write, secret creation or
secret grant occurs in that reaction or in any later reaction while the
configuration stays invalid. -/
theorem invalid_config_blocks_all_reactions (cfg : SmtpConfig) (e : String)
    (h : validateConfig cfg = some e) :
    (∀ ev m, dispatch cfg ev m = [Effect.setStatus (Status.blocked e)]
      ∧ step m cfg ev = { m with unitStatus := Status.blocked e })
    ∧ (∀ m evs, (runEvents m cfg evs).secrets = m.secrets
      ∧ (runEvents m cfg evs).relations = m.relations
      ∧ (runEvents m cfg evs).legacyRelations = m.legacyRelations
      ∧ (evs ≠ [] → (runEvents m cfg evs).unitStatus = Status.blocked e)) := by
  have herr : ∀ pid : Option String, CharmState.from_charm cfg pid = Except.error e := by
    intro pid; unfold CharmState.from_charm; rw [h]
  have hstep : ∀ ev m, dispatch cfg ev m = [Effect.setStatus (Status.blocked e)]
      ∧ step m cfg ev = { m with unitStatus := Status.blocked e } := by
    intro ev m
    have hd := dispatch_error cfg ev m e (herr m.storedPasswordId)
    exact ⟨hd, by unfold step; rw [hd]; rfl⟩
  refine ⟨hstep, ?_⟩
  intro m evs
  induction evs generalizing m with
  | nil => exact ⟨rfl, rfl, rfl, fun hne => absurd rfl hne⟩
  | cons ev t ih =>
      have hrun : runEvents m cfg (ev :: t)
          = runEvents { m with unitStatus := Status.blocked e } cfg t := by
        unfold runEvents
        rw [List.foldl_cons, (hstep ev m).2]
      rcases ih { m with unitStatus := Status.blocked e } with ⟨h1, h2, h3, h4⟩
      refine ⟨by rw [hrun]; exact h1, by rw [hrun]; exact h2, by rw [hrun]; exact h3, ?_⟩
      intro _
      cases t with
      | nil => rw [hrun]; rfl
      | cons ev' t' => rw [hrun]; exact h4 (by simp)

/-- Witness for C3 at the port-99999 configuration. -/
theorem invalid_config_blocks_all_reactions_witness :
    validateConfig invalidConfig = some "invalid configuration: port"
    ∧ ((∀ ev m, dispatch invalidConfig ev m
          = [Effect.setStatus (Status.blocked "invalid configuration: port")]
      ∧ step m invalidConfig ev
          = { m with unitStatus := Status.blocked "invalid configuration: port" })
    ∧ (∀ m evs, (runEvents m invalidConfig evs).secrets = m.secrets
      ∧ (runEvents m invalidConfig evs).relations = m.relations
      ∧ (runEvents m invalidConfig evs).legacyRelations = m.legacyRelations
      ∧ (evs ≠ [] → (runEvents m invalidConfig evs).unitStatus
          = Status.blocked "invalid configuration: port"))) :=
  ⟨rfl, invalid_config_blocks_all_reactions invalidConfig "invalid configuration: port" rfl⟩

theorem optTruthy_eq_true (o : Option String) :
    optTruthy o = true ↔ ∃ s, o = some s ∧ s ≠ "" := by
  cases o with
  | none => simp [optTruthy]
  | some s => simp [optTruthy]

/-- Shape of the configuration-changed effect trace when the password is
falsy (absent or empty): no secret creation happens. -/
theorem configChanged_trace_falsy (cfg : SmtpConfig) (m : ModelState) (st : CharmState)
    (hok : CharmState.from_charm cfg m.storedPasswordId = Except.ok st)
    (hpw : optTruthy st.password = false) :
    dispatch cfg Event.configChanged m
      = Effect.setStatus (Status.maintenance "Configuring charm")
        :: (_update_relations st m ++ [Effect.setStatus Status.active]) := by
  rw [dispatch_configChanged_ok cfg m st hok]
  simp only [_on_config_changed, store_falsy st m.nextSecretId hpw, List.nil_append]

/-- C4: a unit that is not the leader performs no relation-data writes and
no secret grants on any notification type: the effect trace contains
neither kind of effect, both relation lists are left unchanged, and every
secret after the reaction either existed before unchanged or is a fresh
secret with no grants. -/
theorem non_leader_no_writes_no_grants (cfg : SmtpConfig) (m : ModelState) (ev : Event)
    (hl : m.isLeader = false) :
    (∀ a ∈ dispatch cfg ev m, a.isWrite = false ∧ a.isGrant = false)
    ∧ (step m cfg ev).relations = m.relations
    ∧ (step m cfg ev).legacyRelations = m.legacyRelations
    ∧ (∀ s ∈ (step m cfg ev).secrets, s ∈ m.secrets ∨ s.grants = []) := by
  cases hv : CharmState.from_charm cfg m.storedPasswordId with
  | error e =>
      have hd := dispatch_error cfg ev m e hv
      have hs : step m cfg ev = { m with unitStatus := Status.blocked e } := by
        unfold step; rw [hd]; rfl
      refine ⟨?_, by rw [hs], by rw [hs], ?_⟩
      · intro a ha
        rw [hd] at ha
        have := List.mem_singleton.mp ha
        subst this
        exact ⟨rfl, rfl⟩
      · intro s hs'
        rw [hs] at hs'
        exact Or.inl hs'
  | ok st =>
      cases ev with
      | relationCreated rid =>
          have hd : dispatch cfg (Event.relationCreated rid) m = [] := by
            rw [dispatch_relationCreated_ok cfg m st rid hv]
            simp [_on_relation_created, hl]
          have hs : step m cfg (Event.relationCreated rid) = m := by
            unfold step; rw [hd]; rfl
          refine ⟨?_, by rw [hs], by rw [hs], ?_⟩
          · intro a ha; rw [hd] at ha; exact absurd ha (List.not_mem_nil a)
          · intro s hs'; rw [hs] at hs'; exact Or.inl hs'
      | legacyRelationCreated rid =>
          have hd : dispatch cfg (Event.legacyRelationCreated rid) m = [] := by
            rw [dispatch_legacyRelationCreated_ok cfg m st rid hv]
            simp [_on_legacy_relation_created, hl]
          have hs : step m cfg (Event.legacyRelationCreated rid) = m := by
            unfold step; rw [hd]; rfl
          refine ⟨?_, by rw [hs], by rw [hs], ?_⟩
          · intro a ha; rw [hd] at ha; exact absurd ha (List.not_mem_nil a)
          · intro s hs'; rw [hs] at hs'; exact Or.inl hs'
      | configChanged =>
          cases htr : optTruthy st.password with
          | true =>
              obtain ⟨pw, hpw, hne⟩ := (optTruthy_eq_true st.password).mp htr
              have hd := configChanged_trace cfg m st pw hv hpw hne
              rw [update_relations_of_nonleader _ m hl] at hd
              simp only [List.nil_append] at hd
              have hs := step_configChanged_nonleader cfg m st pw hv hpw hne hl
              refine ⟨?_, by rw [hs], by rw [hs], ?_⟩
              · intro a ha
                rw [hd] at ha
                simp only [List.mem_cons, List.not_mem_nil, or_false] at ha
                rcases ha with rfl | rfl | rfl
                · exact ⟨rfl, rfl⟩
                · exact ⟨rfl, rfl⟩
                · exact ⟨rfl, rfl⟩
              · intro s hs'
                rw [hs] at hs'
                rcases List.mem_append.mp hs' with h | h
                · exact Or.inl h
                · have := List.mem_singleton.mp h
                  subst this
                  exact Or.inr rfl
          | false =>
              have hd := configChanged_trace_falsy cfg m st hv htr
              rw [update_relations_of_nonleader _ m hl] at hd
              simp only [List.nil_append] at hd
              have hs : step m cfg Event.configChanged
                  = { m with unitStatus := Status.active } := by
                unfold step; rw [hd]; rfl
              refine ⟨?_, by rw [hs], by rw [hs], ?_⟩
              · intro a ha
                rw [hd] at ha
                simp only [List.mem_cons, List.not_mem_nil, or_false] at ha
                rcases ha with rfl | rfl
                · exact ⟨rfl, rfl⟩
                · exact ⟨rfl, rfl⟩
              · intro s hs'
                rw [hs] at hs'
                exact Or.inl hs'

/-- A non-leader unit, otherwise identical to the base model. -/
def followerModel : ModelState := { baseModel with isLeader := false }

/-- Witness for C4 on the configuration-changed notification. -/
theorem non_leader_no_writes_no_grants_witness :
    followerModel.isLeader = false
    ∧ ((∀ a ∈ dispatch exampleConfig Event.configChanged followerModel,
          a.isWrite = false ∧ a.isGrant = false)
    ∧ (step followerModel exampleConfig Event.configChanged).relations
        = followerModel.relations
    ∧ (step followerModel exampleConfig Event.configChanged).legacyRelations
        = followerModel.legacyRelations
    ∧ (∀ s ∈ (step followerModel exampleConfig Event.configChanged).secrets,
        s ∈ followerModel.secrets ∨ s.grants = [])) :=
  ⟨rfl, non_leader_no_writes_no_grants exampleConfig followerModel Event.configChanged rfl⟩

/-- C5: in a configuration-changed reaction on a leader with a truthy
password, the effect trace is exactly: maintenance status, the secret
creation, every current relation write, every legacy relation write, active
status — so the creation precedes all relation writes, and the payload
written to every current relation already carries the newly stored
reference. -/
theorem secret_created_before_relation_writes (cfg : SmtpConfig) (m : ModelState)
    (st : CharmState) (pw : String)
    (hok : CharmState.from_charm cfg m.storedPasswordId = Except.ok st)
    (hpw : st.password = some pw) (hne : pw ≠ "") (hl : m.isLeader = true) :
    dispatch cfg Event.configChanged m
      = Effect.setStatus (Status.maintenance "Configuring charm")
        :: Effect.createSecret (mkSecretId m.nextSecretId) pw
        :: ((m.relations.map fun r => Effect.writeRelationData RelKind.current r.id
              (_get_smtp_data { st with password_id := some (mkSecretId m.nextSecretId) }))
            ++ (m.legacyRelations.map fun r => Effect.writeRelationData RelKind.legacy r.id
                (_get_legacy_smtp_data { st with password_id := some (mkSecretId m.nextSecretId) }))
            ++ [Effect.setStatus Status.active])
    ∧ (_get_smtp_data { st with password_id := some (mkSecretId m.nextSecretId) }).password_id
        = some (mkSecretId m.nextSecretId) := by
  refine ⟨?_, rfl⟩
  rw [configChanged_trace cfg m st pw hok hpw hne, update_relations_of_leader _ m hl]

/-- Witness for C5 at the scenario configuration on the base leader model. -/
theorem secret_created_before_relation_writes_witness :
    CharmState.from_charm exampleConfig baseModel.storedPasswordId = Except.ok exampleState
    ∧ exampleState.password = some "p"
    ∧ ("p" : String) ≠ ""
    ∧ baseModel.isLeader = true
    ∧ (dispatch exampleConfig Event.configChanged baseModel
        = Effect.setStatus (Status.maintenance "Configuring charm")
          :: Effect.createSecret (mkSecretId baseModel.nextSecretId) "p"
          :: ((baseModel.relations.map fun r => Effect.writeRelationData RelKind.current r.id
                (_get_smtp_data
                  { exampleState with password_id := some (mkSecretId baseModel.nextSecretId) }))
              ++ (baseModel.legacyRelations.map fun r =>
                    Effect.writeRelationData RelKind.legacy r.id
                      (_get_legacy_smtp_data
                        { exampleState with
                          password_id := some (mkSecretId baseModel.nextSecretId) }))
              ++ [Effect.setStatus Status.active])
      ∧ (_get_smtp_data
          { exampleState with
            password_id := some (mkSecretId baseModel.nextSecretId) }).password_id
          = some (mkSecretId baseModel.nextSecretId)) :=
  ⟨rfl, rfl, by decide, rfl,
    secret_created_before_relation_writes exampleConfig baseModel exampleState "p"
      rfl rfl (by decide) rfl⟩

/-- A model in which the password has already been stored as the secret
"secret-0" in a previous reaction. -/
def storedModel : ModelState :=
  { isLeader := true, relations := [], legacyRelations := [],
    secrets := [{ id := "secret-0", password := "p", grants := [] }],
    nextSecretId := 1, storedPasswordId := some "secret-0",
    unitStatus := Status.active }

/-- C6 counterexample: the password is already stored as a secret (the
model holds the reference "secret-0" and the secret store holds the secret),
yet the configuration-changed reaction still creates a new secret — secret
creation is not conditional on the password not yet being stored. -/
theorem secret_recreated_despite_stored_cex :
    storedModel.storedPasswordId = some "secret-0"
    ∧ storedModel.secrets = [{ id := "secret-0", password := "p", grants := [] }]
    ∧ (dispatch exampleConfig Event.configChanged storedModel).countP Effect.isCreate = 1
    ∧ (step storedModel exampleConfig Event.configChanged).secrets
        = [{ id := "secret-0", password := "p", grants := [] },
           { id := "secret-1", password := "p", grants := [] }] := by
  decide

theorem countP_create_update (st : CharmState) (m : ModelState) :
    (_update_relations st m).countP Effect.isCreate = 0 := by
  cases hml : m.isLeader with
  | true =>
      rw [update_relations_of_leader st m hml]
      simp only [List.countP_append, countP_create_mapWrites]
  | false => rw [update_relations_of_nonleader st m hml]; rfl

/-- C6 amended: in every configuration-changed reaction, a new secret is
created if and only if the password in state is truthy (present and
non-empty) — regardless of whether it has already been stored as a secret —
at most one secret is created per reaction, and when created its reference
is recorded in state. -/
theorem secret_creation_iff_password_truthy (cfg : SmtpConfig) (m : ModelState)
    (st : CharmState)
    (hok : CharmState.from_charm cfg m.storedPasswordId = Except.ok st) :
    (dispatch cfg Event.configChanged m).countP Effect.isCreate
      = (if optTruthy st.password then 1 else 0)
    ∧ (optTruthy st.password = true →
        (step m cfg Event.configChanged).storedPasswordId
          = some (mkSecretId m.nextSecretId)) := by
  cases htr : optTruthy st.password with
  | true =>
      obtain ⟨pw, hpw, hne⟩ := (optTruthy_eq_true st.password).mp htr
      constructor
      · rw [configChanged_trace cfg m st pw hok hpw hne]
        simp [List.countP_cons, List.countP_append, countP_create_update, Effect.isCreate]
      · intro _
        cases hml : m.isLeader with
        | true => rw [step_configChanged_leader cfg m st pw hok hpw hne hml]
        | false => rw [step_configChanged_nonleader cfg m st pw hok hpw hne hml]
  | false =>
      constructor
      · rw [configChanged_trace_falsy cfg m st hok htr]
        simp [List.countP_cons, List.countP_append, countP_create_update, Effect.isCreate]
      · intro h
        exact absurd h Bool.false_ne_true

/-- Witness for the amended C6 at the scenario configuration. -/
theorem secret_creation_iff_password_truthy_witness :
    CharmState.from_charm exampleConfig baseModel.storedPasswordId = Except.ok exampleState
    ∧ ((dispatch exampleConfig Event.configChanged baseModel).countP Effect.isCreate
        = (if optTruthy exampleState.password then 1 else 0)
    ∧ (optTruthy exampleState.password = true →
        (step baseModel exampleConfig Event.configChanged).storedPasswordId
          = some (mkSecretId baseModel.nextSecretId))) :=
  ⟨rfl, secret_creation_iff_password_truthy exampleConfig baseModel exampleState rfl⟩

/-- C7: on a current-relation created notification handled by the leader,
when a (truthy) secret reference exists in state, the trace is exactly the
grant of that secret to the relation followed by the write of the
current-shape payload — so the grant happens before the write — and the
payload exposes the reference and never the plaintext password. -/
theorem relation_created_grant_then_write (cfg : SmtpConfig) (m : ModelState)
    (st : CharmState) (sid : String) (rid : Nat)
    (hok : CharmState.from_charm cfg m.storedPasswordId = Except.ok st)
    (hl : m.isLeader = true) (hsid : st.password_id = some sid) (hne : sid ≠ "") :
    dispatch cfg (Event.relationCreated rid) m
      = [Effect.grantSecret sid rid,
         Effect.writeRelationData RelKind.current rid (_get_smtp_data st)]
    ∧ (_get_smtp_data st).password = none
    ∧ (_get_smtp_data st).password_id = some sid := by
  refine ⟨?_, rfl, hsid⟩
  rw [dispatch_relationCreated_ok cfg m st rid hok]
  simp [_on_relation_created, hl, hsid, hne]

/-- A leader model whose persisted secret reference is "secret-0". -/
def grantedModel : ModelState := { baseModel with storedPasswordId := some "secret-0" }

/-- The scenario state snapshot carrying the stored secret reference. -/
def storedState : CharmState := { exampleState with password_id := some "secret-0" }

/-- Witness for C7 on a fresh relation with id 7. -/
theorem relation_created_grant_then_write_witness :
    CharmState.from_charm exampleConfig grantedModel.storedPasswordId = Except.ok storedState
    ∧ grantedModel.isLeader = true
    ∧ storedState.password_id = some "secret-0"
    ∧ ("secret-0" : String) ≠ ""
    ∧ (dispatch exampleConfig (Event.relationCreated 7) grantedModel
        = [Effect.grantSecret "secret-0" 7,
           Effect.writeRelationData RelKind.current 7 (_get_smtp_data storedState)]
      ∧ (_get_smtp_data storedState).password = none
      ∧ (_get_smtp_data storedState).password_id = some "secret-0") :=
  ⟨rfl, rfl, rfl, by decide,
    relation_created_grant_then_write exampleConfig grantedModel storedState "secret-0" 7
      rfl rfl rfl (by decide)⟩

/-- C8: on a legacy relation-created notification handled by the leader,
the trace is exactly one write of the legacy-shape payload into that
relation — no secret grant occurs — and the payload exposes the plaintext
password and no password_id. -/
theorem legacy_relation_created_plaintext_no_grant (cfg : SmtpConfig) (m : ModelState)
    (st : CharmState) (rid : Nat)
    (hok : CharmState.from_charm cfg m.storedPasswordId = Except.ok st)
    (hl : m.isLeader = true) :
    dispatch cfg (Event.legacyRelationCreated rid) m
      = [Effect.writeRelationData RelKind.legacy rid (_get_legacy_smtp_data st)]
    ∧ (∀ a ∈ dispatch cfg (Event.legacyRelationCreated rid) m, a.isGrant = false)
    ∧ (_get_legacy_smtp_data st).password = st.password
    ∧ (_get_legacy_smtp_data st).password_id = none := by
  have hd : dispatch cfg (Event.legacyRelationCreated rid) m
      = [Effect.writeRelationData RelKind.legacy rid (_get_legacy_smtp_data st)] := by
    rw [dispatch_legacyRelationCreated_ok cfg m st rid hok]
    simp [_on_legacy_relation_created, hl]
  refine ⟨hd, ?_, rfl, rfl⟩
  intro a ha
  rw [hd] at ha
  have := List.mem_singleton.mp ha
  subst this
  rfl

/-- Witness for C8 on a fresh legacy relation with id 8. -/
theorem legacy_relation_created_plaintext_no_grant_witness :
    CharmState.from_charm exampleConfig baseModel.storedPasswordId = Except.ok exampleState
    ∧ baseModel.isLeader = true
    ∧ (dispatch exampleConfig (Event.legacyRelationCreated 8) baseModel
        = [Effect.writeRelationData RelKind.legacy 8 (_get_legacy_smtp_data exampleState)]
      ∧ (∀ a ∈ dispatch exampleConfig (Event.legacyRelationCreated 8) baseModel,
          a.isGrant = false)
      ∧ (_get_legacy_smtp_data exampleState).password = exampleState.password
      ∧ (_get_legacy_smtp_data exampleState).password_id = none) :=
  ⟨rfl, rfl,
    legacy_relation_created_plaintext_no_grant exampleConfig baseModel exampleState 8 rfl rfl⟩

theorem update_relations_no_grant (st : CharmState) (m : ModelState) :
    ∀ a ∈ _update_relations st m, a.isGrant = false := by
  cases hml : m.isLeader with
  | true =>
      rw [update_relations_of_leader st m hml]
      intro a ha
      rcases List.mem_append.mp ha with h | h
      · rcases List.mem_map.mp h with ⟨r, _, rfl⟩; rfl
      · rcases List.mem_map.mp h with ⟨r, _, rfl⟩; rfl
  | false =>
      rw [update_relations_of_nonleader st m hml]
      intro a ha
      exact absurd ha (List.not_mem_nil a)

theorem legacyRelationCreated_no_grant (cfg : SmtpConfig) (m : ModelState) (rid : Nat) :
    ∀ a ∈ dispatch cfg (Event.legacyRelationCreated rid) m, a.isGrant = false := by
  intro a ha
  cases hv : CharmState.from_charm cfg m.storedPasswordId with
  | error e =>
      rw [dispatch_error cfg _ m e hv] at ha
      have := List.mem_singleton.mp ha
      subst this
      rfl
  | ok st =>
      rw [dispatch_legacyRelationCreated_ok cfg m st rid hv] at ha
      unfold _on_legacy_relation_created at ha
      cases hml : m.isLeader with
      | true =>
          rw [hml] at ha
          simp only [if_true] at ha
          have := List.mem_singleton.mp ha
          subst this
          rfl
      | false =>
          rw [hml] at ha
          simp only [Bool.false_eq_true, if_false] at ha
          exact absurd ha (List.not_mem_nil a)

/-- C9: a configuration-changed reaction never grants a secret: its effect
trace contains no grant for any configuration and any model; any reaction
whose trace contains a grant is a current relation-created reaction; and
when the reaction creates the secret, the resulting secret store is the old
one plus a fresh secret granted to nobody — so a current relation that
already existed receives the new password_id in its payload without ever
being granted read access during that reaction. -/
theorem configChanged_never_grants (cfg : SmtpConfig) (m : ModelState) :
    (∀ a ∈ dispatch cfg Event.configChanged m, a.isGrant = false)
    ∧ (∀ ev, (∃ a ∈ dispatch cfg ev m, a.isGrant = true) →
        ∃ rid, ev = Event.relationCreated rid)
    ∧ (∀ st pw, CharmState.from_charm cfg m.storedPasswordId = Except.ok st →
        st.password = some pw → pw ≠ "" →
        (step m cfg Event.configChanged).secrets
          = m.secrets ++ [{ id := mkSecretId m.nextSecretId, password := pw, grants := [] }]) := by
  have hA : ∀ a ∈ dispatch cfg Event.configChanged m, a.isGrant = false := by
    intro a ha
    cases hv : CharmState.from_charm cfg m.storedPasswordId with
    | error e =>
        rw [dispatch_error cfg _ m e hv] at ha
        have := List.mem_singleton.mp ha
        subst this
        rfl
    | ok st =>
        cases htr : optTruthy st.password with
        | true =>
            obtain ⟨pw, hpw, hne⟩ := (optTruthy_eq_true st.password).mp htr
            rw [configChanged_trace cfg m st pw hv hpw hne] at ha
            rcases List.mem_cons.mp ha with rfl | ha'
            · rfl
            rcases List.mem_cons.mp ha' with rfl | ha''
            · rfl
            rcases List.mem_append.mp ha'' with h | h
            · exact update_relations_no_grant _ m a h
            · have := List.mem_singleton.mp h
              subst this
              rfl
        | false =>
            rw [configChanged_trace_falsy cfg m st hv htr] at ha
            rcases List.mem_cons.mp ha with rfl | ha'
            · rfl
            rcases List.mem_append.mp ha' with h | h
            · exact update_relations_no_grant _ m a h
            · have := List.mem_singleton.mp h
              subst this
              rfl
  refine ⟨hA, ?_, ?_⟩
  · intro ev hex
    cases ev with
    | configChanged =>
        rcases hex with ⟨a, ha, hg⟩
        rw [hA a ha] at hg
        exact absurd hg Bool.false_ne_true
    | relationCreated rid => exact ⟨rid, rfl⟩
    | legacyRelationCreated rid =>
        rcases hex with ⟨a, ha, hg⟩
        rw [legacyRelationCreated_no_grant cfg m rid a ha] at hg
        exact absurd hg Bool.false_ne_true
  · intro st pw hok hpw hne
    cases hml : m.isLeader with
    | true => rw [step_configChanged_leader cfg m st pw hok hpw hne hml]
    | false => rw [step_configChanged_nonleader cfg m st pw hok hpw hne hml]

/-- Witness for C9, with the grant instance taken from a relation-created
reaction on a model holding the secret reference. -/
theorem configChanged_never_grants_witness :
    (∀ a ∈ dispatch exampleConfig Event.configChanged grantedModel, a.isGrant = false)
    ∧ (∃ rid, Event.relationCreated 5 = Event.relationCreated rid)
    ∧ (step grantedModel exampleConfig Event.configChanged).secrets
        = grantedModel.secrets
          ++ [{ id := mkSecretId grantedModel.nextSecretId, password := "p", grants := [] }] :=
  ⟨(configChanged_never_grants exampleConfig grantedModel).1,
   (configChanged_never_grants exampleConfig grantedModel).2.1 (Event.relationCreated 5)
     ⟨Effect.grantSecret "secret-0" 5, by decide, rfl⟩,
   (configChanged_never_grants exampleConfig grantedModel).2.2 storedState "p"
     rfl rfl (by decide)⟩

/-- C10: on a non-leader unit, a configuration-changed notification with a
truthy password still creates a new secret and still ends with the unit
status active: the trace is maintenance status, one secret creation, active
status — leadership gates only the relation writes. -/
theorem non_leader_configChanged_still_creates_secret (cfg : SmtpConfig) (m : ModelState)
    (st : CharmState) (pw : String)
    (hok : CharmState.from_charm cfg m.storedPasswordId = Except.ok st)
    (hpw : st.password = some pw) (hne : pw ≠ "") (hl : m.isLeader = false) :
    dispatch cfg Event.configChanged m
      = [Effect.setStatus (Status.maintenance "Configuring charm"),
         Effect.createSecret (mkSecretId m.nextSecretId) pw,
         Effect.setStatus Status.active]
    ∧ (step m cfg Event.configChanged).secrets
        = m.secrets ++ [{ id := mkSecretId m.nextSecretId, password := pw, grants := [] }]
    ∧ (step m cfg Event.configChanged).unitStatus = Status.active := by
  have hd := configChanged_trace cfg m st pw hok hpw hne
  rw [update_relations_of_nonleader _ m hl] at hd
  simp only [List.nil_append] at hd
  have hs := step_configChanged_nonleader cfg m st pw hok hpw hne hl
  exact ⟨hd, by rw [hs], by rw [hs]⟩

/-- Witness for C10 at the scenario configuration on the follower model. -/
theorem non_leader_configChanged_still_creates_secret_witness :
    CharmState.from_charm exampleConfig followerModel.storedPasswordId
      = Except.ok exampleState
    ∧ exampleState.password = some "p"
    ∧ ("p" : String) ≠ ""
    ∧ followerModel.isLeader = false
    ∧ (dispatch exampleConfig Event.configChanged followerModel
        = [Effect.setStatus (Status.maintenance "Configuring charm"),
           Effect.createSecret (mkSecretId followerModel.nextSecretId) "p",
           Effect.setStatus Status.active]
      ∧ (step followerModel exampleConfig Event.configChanged).secrets
          = followerModel.secrets
            ++ [{ id := mkSecretId followerModel.nextSecretId, password := "p", grants := [] }]
      ∧ (step followerModel exampleConfig Event.configChanged).unitStatus = Status.active) :=
  ⟨rfl, rfl, by decide, rfl,
    non_leader_configChanged_still_creates_secret exampleConfig followerModel exampleState "p"
      rfl rfl (by decide) rfl⟩
